import Mathlib

/-!
Shallow embedding of the pricing and opportunity-detection engine of the
`baserate-arb` repository, together with theorems settling the frozen
claims about it.

Modelling conventions:
* Python floats are modelled as exact rationals (`ℚ`); the one place the
  code raises a number to a non-integer power (`(1 - rate) ** periods` in
  `BaseRate.calculate_probability`) is modelled with real exponentiation
  (`Real.rpow`), so that function is `ℝ`-valued.
* Python `int(x)` (truncation toward zero) is `pyTrunc`, Python's
  `round(x, d)` (round half to even) is `pyRoundTo`.
* `datetime` values are modelled by their timestamp in seconds (`Datetime`);
  `datetime.isoformat`/`fromisoformat` form an exact bijection in the
  Python standard library, so a serialized timestamp field is modelled by
  the `Datetime` value it encodes.
* Functions that mutate `self` are modelled as functions from the old state
  to the new state (plus the returned value); writes to disk
  (`_save_account`) and log messages are outside the model.
-/

set_option autoImplicit false

namespace BaserateArb

/-- Python `int(x)` applied to a float: truncation toward zero. -/
def pyTrunc (x : ℚ) : ℤ :=
  if 0 ≤ x then ⌊x⌋ else ⌈x⌉

/-- Python `round(x)`: round half to even, returning an integer. -/
def pyRound (x : ℚ) : ℤ :=
  let f := ⌊x⌋
  let r := x - f
  if r < 1/2 then f
  else if 1/2 < r then f + 1
  else if f % 2 = 0 then f else f + 1

/-- Python `round(x, d)`: round to `d` decimal digits, half to even. -/
def pyRoundTo (d : ℕ) (x : ℚ) : ℚ :=
  (pyRound (x * 10 ^ d) : ℚ) / 10 ^ d

example : pyTrunc (5200/102) = 50 := by norm_num [pyTrunc]
example : pyTrunc (-7/2) = -3 := by
  norm_num [pyTrunc, Int.ceil_neg]
example : pyRound (3/2) = 2 := by norm_num [pyRound]
example : pyRound (5/2) = 2 := by norm_num [pyRound]
example : pyRoundTo 2 (111111/10000) = 1111/100 := by norm_num [pyRoundTo, pyRound]

namespace FeeCalculator

/-- `FeeCalculator.FEE_SCHEDULE`: ordered table of half-open price bands
`(min_price, max_price)` (cents) to base fee rates, exactly as written in
`fee_calculator.py`. -/
def FEE_SCHEDULE : List ((ℤ × ℤ) × ℚ) :=
  [((0, 5), 1/100),
   ((5, 10), 15/1000),
   ((10, 20), 2/100),
   ((20, 30), 25/1000),
   ((30, 40), 3/100),
   ((40, 50), 35/1000),
   ((50, 60), 35/1000),
   ((60, 70), 3/100),
   ((70, 80), 25/1000),
   ((80, 90), 2/100),
   ((90, 95), 15/1000),
   ((95, 100), 1/100)]

/-- `FeeCalculator.MAKER_FEE_MULTIPLIER`. -/
def MAKER_FEE_MULTIPLIER : ℚ := 1/2

/-- `FeeCalculator.get_fee_rate`: clamp the price to `[0, 100]`, take the
first schedule band containing it (`min_price <= price < max_price`),
defaulting to `0.035` when no band matches (the `for ... else` branch),
then apply the maker discount. -/
def get_fee_rate (price_cents : ℤ) (is_maker : Bool) : ℚ :=
  let price := max 0 (min 100 price_cents)
  let base_fee :=
    match FEE_SCHEDULE.find? (fun b => decide (b.1.1 ≤ price ∧ price < b.1.2)) with
    | some b => b.2
    | none => 35/1000
  if is_maker then base_fee * MAKER_FEE_MULTIPLIER else base_fee

/-- `FeeCalculator.calculate_fee`: total fee in dollars for a trade. -/
def calculate_fee (price_cents : ℤ) (quantity : ℤ) (is_maker : Bool) : ℚ :=
  let fee_rate := get_fee_rate price_cents is_maker
  let total_cost := ((price_cents : ℚ) / 100) * quantity
  total_cost * fee_rate

/-- `FeeCalculator.calculate_net_profit`: gross profit minus the summed
fees of a list of `(price, quantity)` trades. -/
def calculate_net_profit (gross_profit : ℚ) (trades : List (ℤ × ℤ))
    (all_maker : Bool) : ℚ :=
  let total_fees := (trades.map (fun t => calculate_fee t.1 t.2 all_maker)).sum
  gross_profit - total_fees

example : get_fee_rate 52 false = 35/1000 := by norm_num [get_fee_rate, FEE_SCHEDULE]
example : get_fee_rate 52 true = 175/10000 := by
  norm_num [get_fee_rate, FEE_SCHEDULE, MAKER_FEE_MULTIPLIER]
example : get_fee_rate 100 false = 35/1000 := by norm_num [get_fee_rate, FEE_SCHEDULE]
example : get_fee_rate 95 false = 1/100 := by norm_num [get_fee_rate, FEE_SCHEDULE]
example : get_fee_rate (-3) false = 1/100 := by norm_num [get_fee_rate, FEE_SCHEDULE]
example : calculate_fee 52 50 true = 91/200 := by
  norm_num [calculate_fee, get_fee_rate, FEE_SCHEDULE, MAKER_FEE_MULTIPLIER]
example : calculate_fee 50 49 true = 343/800 := by
  norm_num [calculate_fee, get_fee_rate, FEE_SCHEDULE, MAKER_FEE_MULTIPLIER]

end FeeCalculator

namespace ArbitrageAnalyzer

/-- One contract quote collected by `ArbitrageAnalyzer.analyze_market`
(the dicts pushed onto `contract_prices`). -/
structure ContractPrice where
  ticker : String
  side : String
  price : ℤ
  probability : ℚ
deriving DecidableEq, Repr

/-- One leg of a recommended arbitrage trade (the dicts pushed onto
`trades`). -/
structure Trade where
  ticker : String
  side : String
  action : String
  price : ℤ
  quantity : ℤ
deriving DecidableEq, Repr

/-- `ArbitrageOpportunity`: result object of `analyze_market`.
`expiration_date` is represented by `days_to_expiration` (the only way
the engine uses it); `profit_per_day` is the value computed in the
constructor, `net_profit / max(days_to_expiration, 0.01)`. -/
structure ArbitrageOpportunity where
  market_ticker : String
  market_title : String
  total_probability : ℚ
  deviation : ℚ
  trades : List Trade
  gross_profit : ℚ
  net_profit : ℚ
  days_to_expiration : ℚ
  profit_per_day : ℚ
deriving DecidableEq, Repr

/-- An entry of a market's `contracts` / `outcomes` array. `ticker` is
optional because the code falls back to the market ticker
(`contract.get("ticker", market_ticker)`). -/
structure ContractData where
  ticker : Option String
  last_price : Option ℚ
  yes_bid : Option ℚ
  yes_ask : Option ℚ
deriving DecidableEq, Repr

/-- The fields of the `market_data` dict read by `analyze_market`.
The expiration timestamp string is represented by the number of days
between the parsed date and `datetime.now` (`none` = no
`expiration_time`/`expiration_date` key). -/
structure MarketData where
  ticker : String
  title : String
  market_type : String
  yes_bid : Option ℤ
  yes_ask : Option ℤ
  no_bid : Option ℤ
  no_ask : Option ℤ
  contracts : List ContractData
  expiration_days : Option ℚ
deriving DecidableEq, Repr

/-- The binary-market part of `analyze_market`: selling arbitrage on bid
prices first, then buying arbitrage on ask prices, then the mid-price
fallback; returns the pair `(total_prob, contract_prices)`. -/
def binaryPrices (md : MarketData) : ℚ × List ContractPrice :=
  if md.market_type = "binary" ∧ (md.yes_bid ≠ none ∨ md.yes_ask ≠ none) then
    let bidArb : Option (ℚ × List ContractPrice) :=
      match md.yes_bid, md.no_bid with
      | some yb, some nb =>
        let total_prob_bid := ((yb : ℚ) + (nb : ℚ)) / 100
        if total_prob_bid > 1 then
          some (total_prob_bid,
            [⟨md.ticker, "yes", yb, (yb : ℚ) / 100⟩,
             ⟨md.ticker, "no", nb, (nb : ℚ) / 100⟩])
        else none
      | _, _ => none
    match bidArb with
    | some r => r
    | none =>
      let askArb : Option (ℚ × List ContractPrice) :=
        match md.yes_ask, md.no_ask with
        | some ya, some na =>
          let total_prob_ask := ((ya : ℚ) + (na : ℚ)) / 100
          if total_prob_ask < 1 then
            some (total_prob_ask,
              [⟨md.ticker, "yes", ya, (ya : ℚ) / 100⟩,
               ⟨md.ticker, "no", na, (na : ℚ) / 100⟩])
          else none
        | _, _ => none
      match askArb with
      | some r => r
      | none =>
        let yes_price : Option ℚ :=
          match md.yes_bid, md.yes_ask with
          | some b, some a => some (((b : ℚ) + (a : ℚ)) / 2)
          | some b, none => some (b : ℚ)
          | none, some a => some (a : ℚ)
          | none, none => none
        let no_price : Option ℚ :=
          match md.no_bid, md.no_ask with
          | some b, some a => some (((b : ℚ) + (a : ℚ)) / 2)
          | some b, none => some (b : ℚ)
          | none, some a => some (a : ℚ)
          | none, none => none
        match yes_price, no_price with
        | some yp, some np =>
          ((yp + np) / 100,
            [⟨md.ticker, "yes", pyTrunc yp, yp / 100⟩,
             ⟨md.ticker, "no", pyTrunc np, np / 100⟩])
        | _, _ => (0, [])
  else (0, [])

/-- The `contracts`/`outcomes` fallback of `analyze_market`: accumulate
`total_prob` and `contract_prices` over the contracts array, pricing each
contract by `last_price`, else the bid/ask midpoint, else one side. -/
def contractsFallback (md : MarketData) : ℚ × List ContractPrice :=
  md.contracts.foldl
    (fun acc c =>
      let price_cents : Option ℚ :=
        match c.last_price with
        | some lp => some lp
        | none =>
          match c.yes_bid, c.yes_ask with
          | some b, some a => some ((b + a) / 2)
          | some b, none => some b
          | none, some a => some a
          | none, none => none
      match price_cents with
      | some pc =>
        (acc.1 + pc / 100,
          acc.2 ++ [⟨c.ticker.getD md.ticker, "yes", pyTrunc pc, pc / 100⟩])
      | none => acc)
    (0, [])

/-- `ArbitrageAnalyzer.analyze_market`. Skips markets with no expiration
or with `days_to_expiration <= 0`; collects contract prices (binary
branch first, contracts fallback when it produced none); builds sell legs
when `total_prob > 1`, buy legs otherwise, each leg sized
`int(100 * probability / total_prob)` and dropped when the truncation is
zero; discards the market when no legs remain or when maker-fee net
profit is not positive. (In the code `total_prob = 0` raises
`ZeroDivisionError`, caught by the blanket handler returning `None`; here
division by zero yields quantity `0`, hence no legs and the same `none`.) -/
def analyze_market (md : MarketData) : Option ArbitrageOpportunity :=
  match md.expiration_days with
  | none => none
  | some days_to_expiration =>
    if days_to_expiration ≤ 0 then none
    else
      let bp := binaryPrices md
      let tpcp := if bp.2.isEmpty then contractsFallback md else bp
      let total_prob := tpcp.1
      let contract_prices := tpcp.2
      if contract_prices.isEmpty then none
      else
        let deviation := |total_prob - 1| * 100
        let base_quantity : ℚ := 100
        let action := if total_prob > 1 then "sell" else "buy"
        let trades : List Trade := contract_prices.filterMap (fun c =>
          let quantity := pyTrunc (base_quantity * (c.probability / total_prob))
          if 0 < quantity then
            some ⟨c.ticker, c.side, action, c.price, quantity⟩
          else none)
        let gross_profit :=
          (if total_prob > 1 then total_prob - 1 else 1 - total_prob) * base_quantity
        if trades.isEmpty then none
        else
          let net_profit := FeeCalculator.calculate_net_profit gross_profit
            (trades.map (fun t => (t.price, t.quantity))) true
          if net_profit ≤ 0 then none
          else some
            { market_ticker := md.ticker
              market_title := md.title
              total_probability := total_prob * 100
              deviation := deviation
              trades := trades
              gross_profit := gross_profit
              net_profit := net_profit
              days_to_expiration := days_to_expiration
              profit_per_day := net_profit / max days_to_expiration (1/100) }

example :
    ArbitrageAnalyzer.analyze_market
      ⟨"T", "Title", "binary", some 52, none, some 50, none, [], some 30⟩ =
    some ⟨"T", "Title", 102, 2,
      [⟨"T", "yes", "sell", 52, 50⟩, ⟨"T", "no", "sell", 50, 49⟩],
      2, 893/800, 30, 893/24000⟩ := by
  norm_num [ArbitrageAnalyzer.analyze_market, ArbitrageAnalyzer.binaryPrices,
    FeeCalculator.calculate_net_profit, FeeCalculator.calculate_fee,
    FeeCalculator.get_fee_rate, FeeCalculator.FEE_SCHEDULE,
    FeeCalculator.MAKER_FEE_MULTIPLIER, pyTrunc, List.filterMap,
    Option.some_ne_none, abs_of_pos]

end ArbitrageAnalyzer

namespace TradeExecutor

/-- `TradeOpportunity`: immediate trade opportunity from an orderbook
spread. `spread` is the value set in the constructor,
`sell_price - buy_price`. -/
structure TradeOpportunity where
  market_ticker : String
  market_title : String
  side : String
  buy_price : ℤ
  sell_price : ℤ
  quantity : ℤ
  gross_profit : ℚ
  net_profit : ℚ
  spread : ℤ
deriving DecidableEq, Repr

/-- The fields of the `market_data` dict read by
`analyze_orderbook_spread`. -/
structure SpreadMarketData where
  ticker : String
  title : String
  yes_bid : Option ℤ
  yes_ask : Option ℤ
  no_bid : Option ℤ
  no_ask : Option ℤ
deriving DecidableEq, Repr

/-- One side's candidate block of
`TradeExecutor.analyze_orderbook_spread`: when both quotes exist and
`bid - ask >= min_profit_cents`, size `min(max_position_size, 100)`
contracts, compute taker fees on both legs, and keep the opportunity only
when net profit is positive. -/
def sideOpportunity (min_profit_cents max_position_size : ℤ)
    (ticker title side : String) (bid ask : Option ℤ) :
    List TradeOpportunity :=
  match ask, bid with
  | some a, some b =>
    let spread := b - a
    if spread ≥ min_profit_cents then
      let quantity := min max_position_size 100
      let gross_profit_per_contract := (spread : ℚ) / 100
      let gross_profit := gross_profit_per_contract * quantity
      let buy_fee := FeeCalculator.calculate_fee a quantity false
      let sell_fee := FeeCalculator.calculate_fee b quantity false
      let net_profit := gross_profit - (buy_fee + sell_fee)
      if net_profit > 0 then
        [⟨ticker, title, side, a, b, quantity, gross_profit, net_profit, b - a⟩]
      else []
    else []
  | _, _ => []

/-- `TradeExecutor.analyze_orderbook_spread` with no orderbook supplied
(the `_refine_with_orderbook` pass is skipped): check the YES side, then
the NO side, appending each candidate. -/
def analyze_orderbook_spread (min_profit_cents max_position_size : ℤ)
    (md : SpreadMarketData) : List TradeOpportunity :=
  sideOpportunity min_profit_cents max_position_size md.ticker md.title "yes"
      md.yes_bid md.yes_ask ++
    sideOpportunity min_profit_cents max_position_size md.ticker md.title "no"
      md.no_bid md.no_ask

example :
    analyze_orderbook_spread 2 1000 ⟨"T", "Title", some 43, some 42, none, none⟩ = [] := by
  norm_num [analyze_orderbook_spread, sideOpportunity]

example :
    analyze_orderbook_spread 2 1000 ⟨"T", "Title", some 45, some 42, none, none⟩ = [] := by
  norm_num [analyze_orderbook_spread, sideOpportunity, FeeCalculator.calculate_fee,
    FeeCalculator.get_fee_rate, FeeCalculator.FEE_SCHEDULE]

end TradeExecutor

namespace Models

/-- A Python `datetime`, modelled by its timestamp in seconds. The pair
`datetime.isoformat` / `datetime.fromisoformat` is an exact bijection in
the Python standard library, so a serialized timestamp is modelled by the
`Datetime` it encodes. -/
structure Datetime where
  seconds : ℚ
deriving DecidableEq, Repr

/-- `Platform` enum. -/
inductive Platform where
  | kalshi
  | polymarket
deriving DecidableEq, Repr

/-- `Platform.value`. -/
def Platform.value : Platform → String
  | .kalshi => "kalshi"
  | .polymarket => "polymarket"

/-- `BaseRateUnit` enum. -/
inductive BaseRateUnit where
  | per_year
  | per_month
  | per_week
  | per_day
  | per_event
  | absolute
deriving DecidableEq, Repr

/-- `BaseRateUnit.value`. -/
def BaseRateUnit.value : BaseRateUnit → String
  | .per_year => "per_year"
  | .per_month => "per_month"
  | .per_week => "per_week"
  | .per_day => "per_day"
  | .per_event => "per_event"
  | .absolute => "absolute"

/-- The `BaseRateUnit(s)` enum constructor: the member whose value is
`s`, raising (`none`) otherwise. -/
def BaseRateUnit.ofValue : String → Option BaseRateUnit
  | "per_year" => some .per_year
  | "per_month" => some .per_month
  | "per_week" => some .per_week
  | "per_day" => some .per_day
  | "per_event" => some .per_event
  | "absolute" => some .absolute
  | _ => none

/-- `OrderBookLevel`. -/
structure OrderBookLevel where
  price : ℚ
  quantity : ℤ
deriving DecidableEq, Repr

/-- `MarketOrderBook`. -/
structure MarketOrderBook where
  yes_bids : List OrderBookLevel := []
  yes_asks : List OrderBookLevel := []
  no_bids : List OrderBookLevel := []
  no_asks : List OrderBookLevel := []
deriving DecidableEq, Repr

/-- `BaseRate` dataclass. -/
structure BaseRate where
  rate : ℚ
  unit : BaseRateUnit
  reasoning : String
  sources : List String := []
  events_per_period : Option ℤ := none
  last_updated : Datetime
deriving DecidableEq, Repr

/-- The `periods` value computed inside `BaseRate.calculate_probability`
for a non-absolute unit and a strictly future resolution date
(`365.25 = 1461/4`, `30.44 = 761/25`); for `per_event` a falsy
`events_per_period` (missing or `0`) defaults to a single event. -/
def BaseRate.periodsOf (b : BaseRate) (resolution_date now : Datetime) : ℚ :=
  let days_remaining := (resolution_date.seconds - now.seconds) / 86400
  match b.unit with
  | .per_year => days_remaining / (1461/4)
  | .per_month => days_remaining / (761/25)
  | .per_week => days_remaining / 7
  | .per_day => days_remaining
  | .per_event =>
    match b.events_per_period with
    | some n => if n = 0 then 1 else (n : ℚ) * (days_remaining / (1461/4))
    | none => 1
  | .absolute => 0

/-- `BaseRate.calculate_probability`: the stored rate for the `absolute`
unit or a non-future resolution date, else `0` when the computed periods
is not positive, else the compound no-occurrence probability
`1 - (1 - rate) ** periods` (real exponentiation, since `periods` is a
float). `datetime.utcnow()` is the explicit `now` argument. -/
noncomputable def BaseRate.calculate_probability (b : BaseRate)
    (resolution_date now : Datetime) : ℝ :=
  if b.unit = .absolute then (b.rate : ℝ)
  else if resolution_date.seconds ≤ now.seconds then (b.rate : ℝ)
  else
    let periods := b.periodsOf resolution_date now
    if periods ≤ 0 then 0
    else 1 - (1 - (b.rate : ℝ)) ^ (periods : ℝ)

/-- The dict produced by `BaseRate.to_dict` (`unit` is serialized as its
string value, `last_updated` as its isoformat string). -/
structure BaseRateDict where
  rate : ℚ
  unit : String
  reasoning : String
  sources : List String
  events_per_period : Option ℤ
  last_updated : Datetime
deriving DecidableEq, Repr

/-- `BaseRate.to_dict`. -/
def BaseRate.to_dict (b : BaseRate) : BaseRateDict :=
  { rate := b.rate
    unit := b.unit.value
    reasoning := b.reasoning
    sources := b.sources
    events_per_period := b.events_per_period
    last_updated := b.last_updated }

/-- `BaseRate.from_dict`; `none` models the `ValueError` raised by
`BaseRateUnit(data["unit"])` on an unknown unit string. -/
def BaseRate.from_dict (d : BaseRateDict) : Option BaseRate :=
  match BaseRateUnit.ofValue d.unit with
  | none => none
  | some u => some
    { rate := d.rate
      unit := u
      reasoning := d.reasoning
      sources := d.sources
      events_per_period := d.events_per_period
      last_updated := d.last_updated }

/-- `Market` dataclass (the engine's unified market snapshot). -/
structure Market where
  id : String
  platform : Platform
  title : String
  description : String
  resolution_criteria : String
  resolution_date : Datetime
  category : String := ""
  yes_price : ℚ := 50
  no_price : ℚ := 50
  order_book : Option MarketOrderBook := none
  base_rate : Option BaseRate := none
  volume : ℚ := 0
  liquidity : ℚ := 0
  url : String := ""
  last_updated : Datetime
deriving DecidableEq, Repr

/-- `Market.fair_probability`: the time-adjusted probability of the
attached base rate, `None` without one. -/
noncomputable def Market.fair_probability (m : Market) (now : Datetime) :
    Option ℝ :=
  match m.base_rate with
  | none => none
  | some b => some (b.calculate_probability m.resolution_date now)

/-- Python's `price = buy_price or default`: a missing or falsy (zero)
`buy_price` falls back to the stored market price. -/
def pyOr (buy_price : Option ℚ) (default_price : ℚ) : ℚ :=
  match buy_price with
  | none => default_price
  | some p => if p = 0 then default_price else p

/-- `Market.kelly_fraction_yes`: `max(0, (b*p - q)/b)` with
`b = 100/price - 1`, `p` the fair probability, `q = 1 - p`; `None`
without a fair probability or for a price outside `(0, 100)`. -/
noncomputable def Market.kelly_fraction_yes (m : Market) (now : Datetime)
    (buy_price : Option ℚ) : Option ℝ :=
  match m.fair_probability now with
  | none => none
  | some fair =>
    let price := pyOr buy_price m.yes_price
    if price ≤ 0 ∨ price ≥ 100 then none
    else
      let b : ℝ := 100 / (price : ℝ) - 1
      let p := fair
      let q := 1 - p
      some (max 0 ((b * p - q) / b))

/-- `Market.kelly_fraction_no`: as for YES with win probability
`1 - fair` and the NO price as default. -/
noncomputable def Market.kelly_fraction_no (m : Market) (now : Datetime)
    (buy_price : Option ℚ) : Option ℝ :=
  match m.fair_probability now with
  | none => none
  | some fair =>
    let price := pyOr buy_price m.no_price
    if price ≤ 0 ∨ price ≥ 100 then none
    else
      let b : ℝ := 100 / (price : ℝ) - 1
      let p := 1 - fair
      let q := fair
      some (max 0 ((b * p - q) / b))

/-- `OpportunityAnalysis` dataclass. -/
structure OpportunityAnalysis where
  market : Market
  side : String
  fair_probability : ℚ
  market_probability : ℚ
  edge : ℚ
  expected_value : ℚ
  kelly_fraction : ℚ
  recommended_price : ℚ
  available_quantity : ℤ
deriving DecidableEq, Repr

/-- The dict produced by `OpportunityAnalysis.to_dict`. -/
structure OpportunityAnalysisDict where
  market_id : String
  platform : String
  title : String
  resolution_date : Datetime
  side : String
  fair_probability : ℚ
  market_probability : ℚ
  edge : ℚ
  expected_value : ℚ
  kelly_fraction : ℚ
  recommended_price : ℚ
  available_quantity : ℤ
  url : String
deriving DecidableEq, Repr

/-- `OpportunityAnalysis.to_dict`: a flat projection with probabilities,
edge and Kelly fraction scaled to percent and rounded to 2 decimals and
the expected value rounded to 3 decimals. There is no corresponding
`from_dict`. -/
def OpportunityAnalysis.to_dict (oa : OpportunityAnalysis) :
    OpportunityAnalysisDict :=
  { market_id := oa.market.id
    platform := oa.market.platform.value
    title := oa.market.title
    resolution_date := oa.market.resolution_date
    side := oa.side
    fair_probability := pyRoundTo 2 (oa.fair_probability * 100)
    market_probability := pyRoundTo 2 (oa.market_probability * 100)
    edge := pyRoundTo 2 (oa.edge * 100)
    expected_value := pyRoundTo 3 oa.expected_value
    kelly_fraction := pyRoundTo 2 (oa.kelly_fraction * 100)
    recommended_price := oa.recommended_price
    available_quantity := oa.available_quantity
    url := oa.market.url }

end Models

namespace PaperTrader

open Models

/-- `PaperPosition` dataclass. -/
structure PaperPosition where
  market_id : String
  market_title : String
  platform : String
  side : String
  entry_price : ℚ
  quantity : ℤ
  entry_time : Datetime
  target_price : ℚ
  current_price : ℚ := 0
  status : String := "open"
  exit_price : Option ℚ := none
  exit_time : Option Datetime := none
  pnl : ℚ := 0
  resolution : Option String := none
deriving DecidableEq, Repr

/-- `PaperAccount` dataclass. -/
structure PaperAccount where
  initial_balance : ℚ := 1000
  balance : ℚ := 1000
  positions : List PaperPosition := []
  closed_positions : List PaperPosition := []
  total_trades : ℤ := 0
  winning_trades : ℤ := 0
  total_pnl : ℚ := 0
deriving DecidableEq, Repr

/-- `PaperAccount.available_balance`: balance minus the summed open
position costs. -/
def PaperAccount.available_balance (acc : PaperAccount) : ℚ :=
  acc.balance - (acc.positions.map (fun p => p.entry_price / 100 * (p.quantity : ℚ))).sum

/-- The position built by `PaperTrader.open_position`
(`datetime.utcnow()` is the explicit `now` argument; `current_price` is
initialized to the entry price). -/
def mkOpenPosition (market_id market_title platform side : String)
    (price : ℚ) (quantity : ℤ) (fair_value : ℚ) (now : Datetime) :
    PaperPosition :=
  { market_id := market_id
    market_title := market_title
    platform := platform
    side := side
    entry_price := price
    quantity := quantity
    entry_time := now
    target_price := fair_value
    current_price := price }

/-- `PaperTrader.open_position`: rejected when an open position already
exists for the market id or when the cost exceeds the available balance;
otherwise the new position is appended. The returned `Bool` is the
success flag of the `(success, message)` pair (messages and
`_save_account` are outside the model). -/
def open_position (acc : PaperAccount) (market_id market_title platform side : String)
    (price : ℚ) (quantity : ℤ) (fair_value : ℚ) (now : Datetime) :
    Bool × PaperAccount :=
  if acc.positions.any (fun p => p.market_id = market_id) then (false, acc)
  else
    let cost := price / 100 * (quantity : ℚ)
    if cost > acc.available_balance then (false, acc)
    else (true,
      { acc with positions := acc.positions ++
          [mkOpenPosition market_id market_title platform side price quantity
            fair_value now] })

/-- The `for i, p in enumerate(positions): if p.market_id == market_id:
positions.pop(i); break` idiom of `close_position`/`resolve_market`:
the first position with the given market id together with the remaining
list, or `none`. -/
def popFirst (market_id : String) :
    List PaperPosition → Option (PaperPosition × List PaperPosition)
  | [] => none
  | p :: rest =>
    if p.market_id = market_id then some (p, rest)
    else (popFirst market_id rest).map (fun r => (r.1, p :: r.2))

/-- `PaperTrader.close_position`: pop the first open position for the
market id (failure when there is none), realize
`(exit - entry)/100 * quantity` for YES (negated for NO), credit the
balance, bump the counters, and append the closed position to the
history. -/
def close_position (acc : PaperAccount) (market_id : String)
    (exit_price : ℚ) (now : Datetime) : Bool × PaperAccount :=
  match popFirst market_id acc.positions with
  | none => (false, acc)
  | some (position, rest) =>
    let pnl :=
      if position.side = "YES" then
        (exit_price - position.entry_price) / 100 * (position.quantity : ℚ)
      else
        (position.entry_price - exit_price) / 100 * (position.quantity : ℚ)
    let closed := { position with
      exit_price := some exit_price
      exit_time := some now
      status := "closed"
      pnl := pnl }
    (true,
      { acc with
          balance := acc.balance + pnl
          total_trades := acc.total_trades + 1
          total_pnl := acc.total_pnl + pnl
          winning_trades := acc.winning_trades + (if pnl > 0 then 1 else 0)
          positions := rest
          closed_positions := acc.closed_positions ++ [closed] })

/-- `PaperTrader.resolve_market`: pop the first open position for the
market id (failure when there is none); a position whose side equals the
outcome wins `(100 - entry)/100 * quantity`, otherwise it loses its
stake `entry/100 * quantity`; the settled position is appended to the
closed history with status `resolved` and resolution `win`/`lose`. -/
def resolve_market (acc : PaperAccount) (market_id outcome : String)
    (now : Datetime) : Bool × PaperAccount :=
  match popFirst market_id acc.positions with
  | none => (false, acc)
  | some (position, rest) =>
    let won := position.side = outcome
    let pnl :=
      if won then (100 - position.entry_price) / 100 * (position.quantity : ℚ)
      else -position.entry_price / 100 * (position.quantity : ℚ)
    let settled := { position with
      exit_price := some (if won then 100 else 0)
      exit_time := some now
      status := "resolved"
      pnl := pnl
      resolution := some (if won then "win" else "lose") }
    (true,
      { acc with
          balance := acc.balance + pnl
          total_trades := acc.total_trades + 1
          total_pnl := acc.total_pnl + pnl
          winning_trades := acc.winning_trades + (if pnl > 0 then 1 else 0)
          positions := rest
          closed_positions := acc.closed_positions ++ [settled] })

/-- `PaperTrader.simulate_from_opportunities`, returning the final
account (messages are outside the model): stop at `max_positions` open
positions, skip opportunities below the minimum edge or with an existing
open position, size the rest by the capped fractional-Kelly heuristic
`max(10, int(position_size * min(kelly_fraction, 0.25) * 4))`, and
attempt to open each (a rejected open leaves the account unchanged). -/
def simulate_from_opportunities (acc : PaperAccount)
    (opportunities : List OpportunityAnalysis) (max_positions : ℤ)
    (position_size : ℤ) (min_edge : ℚ) (now : Datetime) : PaperAccount :=
  match opportunities with
  | [] => acc
  | opp :: rest =>
    if (acc.positions.length : ℤ) ≥ max_positions then acc
    else if opp.edge < min_edge then
      simulate_from_opportunities acc rest max_positions position_size min_edge now
    else if acc.positions.any (fun p => p.market_id = opp.market.id) then
      simulate_from_opportunities acc rest max_positions position_size min_edge now
    else
      let kelly_size := pyTrunc ((position_size : ℚ) * min opp.kelly_fraction (1/4) * 4)
      let qty := max 10 kelly_size
      let price := opp.recommended_price
      let acc' := (open_position acc opp.market.id opp.market.title
        opp.market.platform.value opp.side price qty (opp.fair_probability * 100)
        now).2
      simulate_from_opportunities acc' rest max_positions position_size min_edge now

end PaperTrader

/-! ## Claim C1: the `yes_bid=52, no_bid=50` arbitrage example -/

open ArbitrageAnalyzer FeeCalculator in
/-- C1, counterexample: on the binary market with `yes_bid = 52`,
`no_bid = 50` and a future expiration, the returned opportunity's
`total_probability` is `102.0` (percent), not `1.02`, and its first sell
leg has `50` contracts (`int(100 * 52/102) = 50`), not `51`. -/
theorem C1_counterexample :
    ((analyze_market
        ⟨"T", "Title", "binary", some 52, none, some 50, none, [], some 30⟩).map
      (fun o => (o.total_probability, o.trades.map Trade.quantity))) =
        some (102, [50, 49]) ∧
    ¬ ((analyze_market
        ⟨"T", "Title", "binary", some 52, none, some 50, none, [], some 30⟩).map
      (fun o => (o.total_probability, o.trades.map Trade.quantity))) =
        some (51/50, [51, 49]) := by
  constructor <;>
    norm_num [ArbitrageAnalyzer.analyze_market, ArbitrageAnalyzer.binaryPrices,
      FeeCalculator.calculate_net_profit, FeeCalculator.calculate_fee,
      FeeCalculator.get_fee_rate, FeeCalculator.FEE_SCHEDULE,
      FeeCalculator.MAKER_FEE_MULTIPLIER, pyTrunc, List.filterMap,
      Option.some_ne_none, abs_of_pos]

open ArbitrageAnalyzer FeeCalculator in
/-- C1, amended: for a binary market with a future expiration and
`yes_bid = 52`, `no_bid = 50`, `analyze_market` returns an accepted
opportunity whose `total_probability` is `102.0` (the summed probability
in percent), whose `deviation` is `2.0`, whose trade list is exactly two
sell legs of `50` and `49` contracts (100 contracts allocated
proportionally to `52/102` and `50/102`, truncating to integers), whose
`gross_profit` is `2.0`, and whose `net_profit` equals `2.0` minus maker
fees on both legs (`2 - 0.88375 = 1.11625 > 0`, so the opportunity is
accepted). -/
theorem C1_amended :
    analyze_market
        ⟨"T", "Title", "binary", some 52, none, some 50, none, [], some 30⟩ =
      some ⟨"T", "Title", 102, 2,
        [⟨"T", "yes", "sell", 52, 50⟩, ⟨"T", "no", "sell", 50, 49⟩],
        2, 893/800, 30, 893/24000⟩ ∧
    (893/800 : ℚ) = 2 - (calculate_fee 52 50 true + calculate_fee 50 49 true) := by
  constructor
  · norm_num [ArbitrageAnalyzer.analyze_market, ArbitrageAnalyzer.binaryPrices,
      FeeCalculator.calculate_net_profit, FeeCalculator.calculate_fee,
      FeeCalculator.get_fee_rate, FeeCalculator.FEE_SCHEDULE,
      FeeCalculator.MAKER_FEE_MULTIPLIER, pyTrunc, List.filterMap,
      Option.some_ne_none, abs_of_pos]
  · norm_num [FeeCalculator.calculate_fee, FeeCalculator.get_fee_rate,
      FeeCalculator.FEE_SCHEDULE, FeeCalculator.MAKER_FEE_MULTIPLIER]

/-! ## Claim C2: fee schedule symmetry and the §6 table -/

namespace FeeCalculator

/-- Modelled from the spec: the bit-exact fee table of §6, with the last
band `[95,100]` closed at `100` as the spec writes it (intended domain
`[0, 100]`). -/
def specFeeSchedule (p : ℤ) : ℚ :=
  if p < 5 then 1/100
  else if p < 10 then 15/1000
  else if p < 20 then 2/100
  else if p < 30 then 25/1000
  else if p < 40 then 3/100
  else if p < 50 then 35/1000
  else if p < 60 then 35/1000
  else if p < 70 then 3/100
  else if p < 80 then 25/1000
  else if p < 90 then 2/100
  else if p < 95 then 15/1000
  else 1/100

set_option maxHeartbeats 1600000 in
/-- The base (taker) fee rate of the code agrees with the spec's table at
every clamped price except `100`, where the schedule's half-open bands
all fail to match and the defensive `0.035` default applies. -/
theorem get_fee_rate_base_eq (p : ℤ) (h0 : 0 ≤ p) (h1 : p ≤ 100) :
    get_fee_rate p false = if p = 100 then 35/1000 else specFeeSchedule p := by
  interval_cases p <;> rfl

/-- The maker rate is always exactly half the taker rate. -/
theorem get_fee_rate_maker_half (p : ℤ) :
    get_fee_rate p true = get_fee_rate p false * MAKER_FEE_MULTIPLIER := by
  simp [get_fee_rate]

end FeeCalculator

open FeeCalculator in
/-- C2, counterexample: the fee schedule is not symmetric around 50¢ at
bucket boundaries — `get_fee_rate(5) = 1.5%` but
`get_fee_rate(95) = 1%` — and the base rate at `100` is the `3.5%`
default, not the `1%` the spec's `[95,100]` band promises. -/
theorem C2_counterexample :
    get_fee_rate 5 false ≠ get_fee_rate 95 false ∧
    get_fee_rate 100 false ≠ specFeeSchedule 100 := by
  constructor <;> norm_num [get_fee_rate, FEE_SCHEDULE, specFeeSchedule]

open FeeCalculator in
set_option maxHeartbeats 1600000 in
/-- C2, amended: the maker rate is exactly half the taker rate at every
price; the base (taker) rate matches the bit-exact table of §6 on
`[0, 100)` but is the defensive default `3.5%` at `100` (the schedule's
bands are half-open, so `100` matches none); and
`get_fee_rate(p) = get_fee_rate(100 - p)` holds for every `p` in
`[0, 100]` except the lower band boundaries and `100` itself, i.e. except
`p ∈ {0, 5, 10, 20, 30, 40, 60, 70, 80, 90, 95, 100}`. -/
theorem C2_amended (p : ℤ) (m : Bool) :
    get_fee_rate p true = get_fee_rate p false * MAKER_FEE_MULTIPLIER ∧
    (0 ≤ p → p < 100 → get_fee_rate p false = specFeeSchedule p) ∧
    get_fee_rate 100 false = 35/1000 ∧
    (0 ≤ p → p ≤ 100 →
      p ∉ ([0, 5, 10, 20, 30, 40, 60, 70, 80, 90, 95, 100] : List ℤ) →
      get_fee_rate p m = get_fee_rate (100 - p) m) := by
  refine ⟨get_fee_rate_maker_half p, ?_, ?_, ?_⟩
  · intro h0 h1
    rw [get_fee_rate_base_eq p h0 (by omega), if_neg (by omega)]
  · norm_num [get_fee_rate, FEE_SCHEDULE]
  · intro h0 h1 hmem
    simp only [List.mem_cons, List.not_mem_nil, or_false] at hmem
    push_neg at hmem
    obtain ⟨n0, n5, n10, n20, n30, n40, n60, n70, n80, n90, n95, n100⟩ := hmem
    have hbase : get_fee_rate p false = get_fee_rate (100 - p) false := by
      interval_cases p <;> first | omega | rfl
    cases m
    · exact hbase
    · rw [get_fee_rate_maker_half, get_fee_rate_maker_half, hbase]

open FeeCalculator in
/-- Witness for `C2_amended` at `p = 7`. -/
theorem C2_amended_witness :
    get_fee_rate 7 false = specFeeSchedule 7 ∧
    get_fee_rate 7 true = get_fee_rate 93 true := by
  refine ⟨(C2_amended 7 true).2.1 (by norm_num) (by norm_num), ?_⟩
  exact (C2_amended 7 true).2.2.2 (by norm_num) (by norm_num) (by norm_num)

/-! ## Claim C3: the crossed-book scanner examples -/

open TradeExecutor in
/-- C3, counterexample: with `min_profit_cents = 2` and the default
`max_position_size = 1000`, the market with `yes_bid = 45, yes_ask = 42`
yields no opportunity at all — the claimed YES opportunity does not
exist, because taker fees on both legs exceed the gross spread. -/
theorem C3_counterexample :
    analyze_orderbook_spread 2 1000 ⟨"T", "Title", some 45, some 42, none, none⟩ =
      [] := by
  norm_num [TradeExecutor.analyze_orderbook_spread, TradeExecutor.sideOpportunity,
    FeeCalculator.calculate_fee, FeeCalculator.get_fee_rate,
    FeeCalculator.FEE_SCHEDULE]

open TradeExecutor FeeCalculator in
/-- C3, amended: with `min_profit_cents = 2` and no order book, the
market with `yes_bid = 43, yes_ask = 42` (spread `1`) yields no
opportunity; the market with `yes_bid = 45, yes_ask = 42` (spread `3`)
passes the spread filter and its candidate is sized
`min(max_position_size, 100)` with
`net_profit = (spread/100) * quantity` minus taker fees on both legs, but
that net profit, `-0.00045` per contract, is not positive, so the scanner
discards the candidate and also returns no opportunity. -/
theorem C3_amended (mps : ℤ) (h : 0 ≤ mps) :
    analyze_orderbook_spread 2 mps ⟨"T", "Title", some 43, some 42, none, none⟩ =
      [] ∧
    analyze_orderbook_spread 2 mps ⟨"T", "Title", some 45, some 42, none, none⟩ =
      [] ∧
    (3 : ℚ)/100 * (min mps 100 : ℤ) -
      (calculate_fee 42 (min mps 100) false + calculate_fee 45 (min mps 100) false) ≤
      0 := by
  have hq : (0 : ℚ) ≤ (mps : ℚ) ⊓ 100 :=
    le_min (by exact_mod_cast h) (by norm_num)
  refine ⟨?_, ?_, ?_⟩
  · norm_num [TradeExecutor.analyze_orderbook_spread, TradeExecutor.sideOpportunity]
  · norm_num [TradeExecutor.analyze_orderbook_spread, TradeExecutor.sideOpportunity,
      FeeCalculator.calculate_fee, FeeCalculator.get_fee_rate,
      FeeCalculator.FEE_SCHEDULE]
    nlinarith [hq]
  · norm_num [FeeCalculator.calculate_fee, FeeCalculator.get_fee_rate,
      FeeCalculator.FEE_SCHEDULE]
    nlinarith [hq]

open TradeExecutor FeeCalculator in
/-- Witness for `C3_amended` at the default `max_position_size = 1000`. -/
theorem C3_amended_witness :
    analyze_orderbook_spread 2 1000 ⟨"T", "Title", some 43, some 42, none, none⟩ =
      [] ∧
    analyze_orderbook_spread 2 1000 ⟨"T", "Title", some 45, some 42, none, none⟩ =
      [] := by
  exact ⟨(C3_amended 1000 (by norm_num)).1, (C3_amended 1000 (by norm_num)).2.1⟩

/-! ## Claim C4: serialization round trips -/

namespace Models

/-- Reading a `BaseRateUnit` back from its serialized string value
recovers the member. -/
theorem BaseRateUnit.ofValue_value (u : BaseRateUnit) :
    BaseRateUnit.ofValue u.value = some u := by
  cases u <;> rfl

/-- A concrete market used to exhibit the lossiness of
`OpportunityAnalysis.to_dict`. -/
def collisionMarket : Market :=
  { id := "m"
    platform := .kalshi
    title := "t"
    description := "d"
    resolution_criteria := "r"
    resolution_date := ⟨0⟩
    last_updated := ⟨0⟩ }

/-- An analysis whose `fair_probability` is `0.111111`. -/
def collisionA : OpportunityAnalysis :=
  { market := collisionMarket
    side := "YES"
    fair_probability := 111111/1000000
    market_probability := 1/2
    edge := 1/10
    expected_value := 3/2
    kelly_fraction := 1/10
    recommended_price := 50
    available_quantity := 100 }

/-- The same analysis with `fair_probability = 0.111112`: both round to
`11.11` percent in `to_dict`. -/
def collisionB : OpportunityAnalysis :=
  { collisionA with fair_probability := 111112/1000000 }

/-- The two distinct analyses serialize to the same dict. -/
theorem collision_to_dict_eq :
    collisionA.to_dict = collisionB.to_dict := by
  norm_num [collisionA, collisionB, collisionMarket, OpportunityAnalysis.to_dict,
    pyRoundTo, pyRound]

/-- The two analyses differ. -/
theorem collision_ne : collisionA ≠ collisionB := by
  simp only [collisionA, collisionB, ne_eq, OpportunityAnalysis.mk.injEq]
  norm_num

end Models

open Models in
/-- C4, counterexample: `OpportunityAnalysis` does not round-trip: two
analyses that differ in `fair_probability` (`0.111111` vs `0.111112`)
serialize to the same dict (both probabilities round to `11.11`), so no
deserializer can restore every field; indeed `OpportunityAnalysis` has no
`from_dict` at all. -/
theorem C4_counterexample :
    collisionA.to_dict = collisionB.to_dict ∧ collisionA ≠ collisionB :=
  ⟨collision_to_dict_eq, collision_ne⟩

open Models in
/-- C4, amended: `BaseRate` round-trips exactly through
`to_dict`/`from_dict` (every field is preserved), but
`OpportunityAnalysis.to_dict` rounds its percentage fields and has no
inverse: no deserializer function can restore every analysis from its
dict. -/
theorem C4_amended :
    (∀ b : BaseRate, BaseRate.from_dict b.to_dict = some b) ∧
    (∀ g : OpportunityAnalysisDict → OpportunityAnalysis,
      ∃ oa : OpportunityAnalysis, g oa.to_dict ≠ oa) := by
  constructor
  · intro b
    cases b with
    | mk rate unit reasoning sources events_per_period last_updated =>
      cases unit <;> rfl
  · intro g
    by_cases hg : g collisionA.to_dict = collisionA
    · refine ⟨collisionB, ?_⟩
      rw [← collision_to_dict_eq, hg]
      exact collision_ne
    · exact ⟨collisionA, hg⟩

/-! ## Claim C5: `calculate_probability` stays in `[0, 1]` -/

open Models in
/-- C5: for every base rate with `rate ∈ [0, 1]` and every resolution
date, `BaseRate.calculate_probability` returns a value in `[0, 1]`; it
returns the rate unchanged when the unit is `absolute` or the resolution
date is not after now, returns `0` when the computed periods is not
positive, and otherwise returns `1 - (1 - rate) ** periods`. -/
theorem C5_probability_in_unit_interval (b : BaseRate) (res now : Datetime)
    (h0 : 0 ≤ b.rate) (h1 : b.rate ≤ 1) :
    (0 ≤ b.calculate_probability res now ∧ b.calculate_probability res now ≤ 1) ∧
    (b.unit = .absolute ∨ res.seconds ≤ now.seconds →
      b.calculate_probability res now = (b.rate : ℝ)) ∧
    (b.unit ≠ .absolute → now.seconds < res.seconds →
      b.periodsOf res now ≤ 0 → b.calculate_probability res now = 0) ∧
    (b.unit ≠ .absolute → now.seconds < res.seconds →
      0 < b.periodsOf res now →
      b.calculate_probability res now =
        1 - (1 - (b.rate : ℝ)) ^ ((b.periodsOf res now : ℚ) : ℝ)) := by
  have hr0 : (0 : ℝ) ≤ (b.rate : ℝ) := by exact_mod_cast h0
  have hr1 : (b.rate : ℝ) ≤ 1 := by exact_mod_cast h1
  by_cases ha : b.unit = .absolute
  · refine ⟨?_, fun _ => ?_, fun hn _ _ => absurd ha hn, fun hn _ _ => absurd ha hn⟩ <;>
      simp [BaseRate.calculate_probability, ha, hr0, hr1]
  · by_cases hd : res.seconds ≤ now.seconds
    · refine ⟨?_, fun _ => ?_, fun _ hlt _ => absurd hd (not_le.mpr hlt),
        fun _ hlt _ => absurd hd (not_le.mpr hlt)⟩ <;>
        simp [BaseRate.calculate_probability, ha, hd, hr0, hr1]
    · by_cases hp : b.periodsOf res now ≤ 0
      · refine ⟨?_, fun hor => ?_, fun _ _ _ => ?_, fun _ _ hpos => absurd hp (not_le.mpr hpos)⟩
        · simp [BaseRate.calculate_probability, ha, hd, hp]
        · rcases hor with h | h
          · exact absurd h ha
          · exact absurd h hd
        · simp [BaseRate.calculate_probability, ha, hd, hp]
      · have hval : b.calculate_probability res now =
            1 - (1 - (b.rate : ℝ)) ^ ((b.periodsOf res now : ℚ) : ℝ) := by
          simp [BaseRate.calculate_probability, ha, hd, hp]
        have hx0 : (0 : ℝ) ≤ 1 - (b.rate : ℝ) := by linarith
        have hx1 : 1 - (b.rate : ℝ) ≤ 1 := by linarith
        have hper : (0 : ℝ) ≤ ((b.periodsOf res now : ℚ) : ℝ) := by
          have : (0 : ℚ) ≤ b.periodsOf res now := le_of_not_le hp
          exact_mod_cast this
        have hpow0 : (0 : ℝ) ≤ (1 - (b.rate : ℝ)) ^ ((b.periodsOf res now : ℚ) : ℝ) :=
          Real.rpow_nonneg hx0 _
        have hpow1 : (1 - (b.rate : ℝ)) ^ ((b.periodsOf res now : ℚ) : ℝ) ≤ 1 :=
          Real.rpow_le_one hx0 hx1 hper
        refine ⟨⟨?_, ?_⟩, fun hor => ?_, fun _ _ hle => absurd hle hp, fun _ _ _ => hval⟩
        · rw [hval]; linarith
        · rw [hval]; linarith
        · rcases hor with h | h
          · exact absurd h ha
          · exact absurd h hd

open Models in
/-- Witness for `C5_probability_in_unit_interval` at an absolute
half-probability base rate. -/
theorem C5_witness :
    BaseRate.calculate_probability
        { rate := 1/2, unit := .absolute, reasoning := "r", last_updated := ⟨0⟩ }
        ⟨1⟩ ⟨0⟩ ≤ 1 :=
  ((C5_probability_in_unit_interval
    { rate := 1/2, unit := .absolute, reasoning := "r", last_updated := ⟨0⟩ }
    ⟨1⟩ ⟨0⟩ (by norm_num) (by norm_num)).1).2

/-! ## Claim C6: Kelly fractions -/

open Models in
/-- C6: for every fair probability in `[0, 1]`, when the (effective)
entry price lies strictly between `0` and `100` cents,
`kelly_fraction_yes` and `kelly_fraction_no` return
`max(0, (b*p - q)/b)` with `b = 100/price - 1` and win probability `f`
resp. `1 - f`, so the result is never negative; when the price is `≤ 0`
or `≥ 100` they return `none` instead of raising. -/
theorem C6_kelly_fractions (m : Market) (now : Datetime) (bp : Option ℚ)
    (f : ℝ) (hf : m.fair_probability now = some f) (h0 : 0 ≤ f) (h1 : f ≤ 1) :
    (0 < pyOr bp m.yes_price → pyOr bp m.yes_price < 100 →
      m.kelly_fraction_yes now bp =
        some (max 0 (((100 / ((pyOr bp m.yes_price : ℚ) : ℝ) - 1) * f - (1 - f)) /
          (100 / ((pyOr bp m.yes_price : ℚ) : ℝ) - 1))) ∧
      (0 : ℝ) ≤ max 0 (((100 / ((pyOr bp m.yes_price : ℚ) : ℝ) - 1) * f - (1 - f)) /
          (100 / ((pyOr bp m.yes_price : ℚ) : ℝ) - 1))) ∧
    (pyOr bp m.yes_price ≤ 0 ∨ pyOr bp m.yes_price ≥ 100 →
      m.kelly_fraction_yes now bp = none) ∧
    (0 < pyOr bp m.no_price → pyOr bp m.no_price < 100 →
      m.kelly_fraction_no now bp =
        some (max 0 (((100 / ((pyOr bp m.no_price : ℚ) : ℝ) - 1) * (1 - f) - f) /
          (100 / ((pyOr bp m.no_price : ℚ) : ℝ) - 1))) ∧
      (0 : ℝ) ≤ max 0 (((100 / ((pyOr bp m.no_price : ℚ) : ℝ) - 1) * (1 - f) - f) /
          (100 / ((pyOr bp m.no_price : ℚ) : ℝ) - 1))) ∧
    (pyOr bp m.no_price ≤ 0 ∨ pyOr bp m.no_price ≥ 100 →
      m.kelly_fraction_no now bp = none) := by
  refine ⟨fun hp0 hp1 => ⟨?_, le_max_left 0 _⟩, fun hout => ?_,
    fun hp0 hp1 => ⟨?_, le_max_left 0 _⟩, fun hout => ?_⟩
  · rw [Market.kelly_fraction_yes, hf]
    dsimp only
    split_ifs with h
    · rcases h with h | h <;> linarith
    · rfl
  · rw [Market.kelly_fraction_yes, hf]
    dsimp only
    rw [if_pos hout]
  · rw [Market.kelly_fraction_no, hf]
    dsimp only
    split_ifs with h
    · rcases h with h | h <;> linarith
    · rfl
  · rw [Market.kelly_fraction_no, hf]
    dsimp only
    rw [if_pos hout]

open Models in
/-- A concrete market with an absolute base rate of `1/2`, YES price 40
and NO price 60, used to witness the Kelly theorems. -/
def kellyMarket : Market :=
  { id := "m"
    platform := .kalshi
    title := "t"
    description := "d"
    resolution_criteria := "r"
    resolution_date := ⟨0⟩
    yes_price := 40
    no_price := 60
    base_rate := some { rate := 1/2, unit := .absolute, reasoning := "r", last_updated := ⟨0⟩ }
    last_updated := ⟨0⟩ }

open Models in
/-- Witness for `C6_kelly_fractions` on `kellyMarket` with no explicit
buy price (effective prices 40 and 60) and on an explicit out-of-range
buy price of 100. -/
theorem C6_kelly_fractions_witness :
    kellyMarket.kelly_fraction_yes ⟨0⟩ none =
      some (max 0 (((100 / ((pyOr none kellyMarket.yes_price : ℚ) : ℝ) - 1) *
          (((1:ℚ)/2 : ℚ) : ℝ) - (1 - (((1:ℚ)/2 : ℚ) : ℝ))) /
        (100 / ((pyOr none kellyMarket.yes_price : ℚ) : ℝ) - 1))) ∧
    kellyMarket.kelly_fraction_no ⟨0⟩ (some 100) = none := by
  have hf : kellyMarket.fair_probability ⟨0⟩ = some (((1:ℚ)/2 : ℚ) : ℝ) := by
    simp [kellyMarket, Market.fair_probability, BaseRate.calculate_probability]
  have H := C6_kelly_fractions kellyMarket ⟨0⟩ none (((1:ℚ)/2 : ℚ) : ℝ) hf
    (by norm_num) (by norm_num)
  have H2 := C6_kelly_fractions kellyMarket ⟨0⟩ (some 100) (((1:ℚ)/2 : ℚ) : ℝ) hf
    (by norm_num) (by norm_num)
  refine ⟨(H.1 ?_ ?_).1, H2.2.2.2 ?_⟩
  · norm_num [pyOr, kellyMarket]
  · norm_num [pyOr, kellyMarket]
  · norm_num [pyOr, kellyMarket]

/-! ## Claims C7-C10: the paper ledger -/

namespace PaperTrader

open Models

/-- When no open position carries the market id, the pop-first search
returns nothing. -/
theorem popFirst_eq_none {market_id : String} {l : List PaperPosition}
    (h : ∀ p ∈ l, p.market_id ≠ market_id) :
    popFirst market_id l = none := by
  induction l with
  | nil => rfl
  | cons p rest ih =>
    rw [popFirst, if_neg (h p (List.mem_cons_self p rest)),
      ih (fun q hq => h q (List.mem_cons_of_mem p hq))]
    rfl


/-- Positions after an `open_position` attempt are the old positions
plus possibly the newly created one. -/
theorem open_position_mem (acc : PaperAccount)
    (market_id market_title platform side : String) (price : ℚ)
    (quantity : ℤ) (fair_value : ℚ) (now : Datetime) (q : PaperPosition)
    (hq : q ∈ (open_position acc market_id market_title platform side price
      quantity fair_value now).2.positions) :
    q ∈ acc.positions ∨
      q = mkOpenPosition market_id market_title platform side price quantity
        fair_value now := by
  unfold open_position at hq
  dsimp only at hq
  split_ifs at hq
  · exact Or.inl hq
  · exact Or.inl hq
  · simp only [List.mem_append, List.mem_singleton] at hq
    exact hq

end PaperTrader

open Models PaperTrader in
/-- C7: `open_position` rejects exactly when an open position already
exists for the market id or when `cost = price/100 * quantity` exceeds
the available balance; a rejection leaves the account unchanged; a
success leaves the balance unchanged and appends the new position; and
the at-most-one-open-position-per-market-id invariant is preserved. -/
theorem C7_open_position (acc : PaperAccount)
    (market_id market_title platform side : String) (price : ℚ)
    (quantity : ℤ) (fair_value : ℚ) (now : Datetime) :
    ((open_position acc market_id market_title platform side price quantity
        fair_value now).1 = false ↔
      (∃ p ∈ acc.positions, p.market_id = market_id) ∨
        price / 100 * (quantity : ℚ) > acc.available_balance) ∧
    ((open_position acc market_id market_title platform side price quantity
        fair_value now).1 = false →
      (open_position acc market_id market_title platform side price quantity
        fair_value now).2 = acc) ∧
    ((open_position acc market_id market_title platform side price quantity
        fair_value now).1 = true →
      (open_position acc market_id market_title platform side price quantity
          fair_value now).2.balance = acc.balance ∧
      (open_position acc market_id market_title platform side price quantity
          fair_value now).2.positions = acc.positions ++
        [mkOpenPosition market_id market_title platform side price quantity
          fair_value now]) ∧
    ((acc.positions.Pairwise fun a b => a.market_id ≠ b.market_id) →
      ((open_position acc market_id market_title platform side price quantity
          fair_value now).2.positions.Pairwise
        fun a b => a.market_id ≠ b.market_id)) := by
  by_cases hdup : acc.positions.any (fun p => p.market_id = market_id)
  · have hop : open_position acc market_id market_title platform side price
        quantity fair_value now = (false, acc) := by
      rw [open_position, if_pos hdup]
    rw [hop]
    refine ⟨⟨fun _ => ?_, fun _ => rfl⟩, fun _ => rfl,
      fun h => absurd h (by norm_num), fun h => h⟩
    rcases List.any_eq_true.mp hdup with ⟨p, hp, hpid⟩
    exact Or.inl ⟨p, hp, of_decide_eq_true hpid⟩
  · have hnodup : ∀ p ∈ acc.positions, p.market_id ≠ market_id := by
      intro p hp hpe
      exact hdup (List.any_eq_true.mpr ⟨p, hp, decide_eq_true hpe⟩)
    by_cases hcost : price / 100 * (quantity : ℚ) > acc.available_balance
    · have hop : open_position acc market_id market_title platform side price
          quantity fair_value now = (false, acc) := by
        rw [open_position, if_neg hdup, if_pos hcost]
      rw [hop]
      exact ⟨⟨fun _ => Or.inr hcost, fun _ => rfl⟩, fun _ => rfl,
        fun h => absurd h (by norm_num), fun h => h⟩
    · have hop : open_position acc market_id market_title platform side price
          quantity fair_value now = (true,
            { acc with positions := acc.positions ++
                [mkOpenPosition market_id market_title platform side price
                  quantity fair_value now] }) := by
        rw [open_position, if_neg hdup, if_neg hcost]
      rw [hop]
      refine ⟨⟨fun h => absurd h (by norm_num), fun hor => ?_⟩,
        fun h => absurd h (by norm_num), fun _ => ⟨rfl, rfl⟩, fun hpw => ?_⟩
      · rcases hor with ⟨p, hp, hpid⟩ | h
        · exact absurd hpid (hnodup p hp)
        · exact absurd h hcost
      · rw [List.pairwise_append]
        refine ⟨hpw, List.pairwise_singleton _ _, ?_⟩
        intro a ha b hb
        rw [List.mem_singleton] at hb
        subst hb
        simpa [mkOpenPosition] using hnodup a ha

open Models PaperTrader in
/-- Witness for `C7_open_position`: a second open for market id `m` is
rejected and leaves the account unchanged. -/
theorem C7_open_position_witness :
    (open_position
        { positions := [mkOpenPosition "m" "t" "kalshi" "YES" 50 10 60 ⟨0⟩] }
        "m" "t2" "kalshi" "NO" 40 5 30 ⟨1⟩).1 = false ∧
    (open_position
        { positions := [mkOpenPosition "m" "t" "kalshi" "YES" 50 10 60 ⟨0⟩] }
        "m" "t2" "kalshi" "NO" 40 5 30 ⟨1⟩).2 =
      { positions := [mkOpenPosition "m" "t" "kalshi" "YES" 50 10 60 ⟨0⟩] } := by
  have H := C7_open_position
    { positions := [mkOpenPosition "m" "t" "kalshi" "YES" 50 10 60 ⟨0⟩] }
    "m" "t2" "kalshi" "NO" 40 5 30 ⟨1⟩
  have hfalse := H.1.mpr
    (Or.inl ⟨mkOpenPosition "m" "t" "kalshi" "YES" 50 10 60 ⟨0⟩,
      List.mem_singleton.mpr rfl, rfl⟩)
  exact ⟨hfalse, H.2.1 hfalse⟩

open Models PaperTrader in
/-- C8: `resolve_market` on an account whose first matching open
position is `position` settles deterministically: a side equal to the
outcome wins `(100 - entry)/100 * quantity` and is tagged `win`, any
other side loses `entry/100 * quantity` and is tagged `lose`; the
balance moves by the pnl, the trade counters update, and the position
leaves the open set and is appended to the closed history exactly once
with status `resolved`. -/
theorem C8_resolve_market (acc : PaperAccount) (market_id outcome : String)
    (now : Datetime) (position : PaperPosition) (rest : List PaperPosition)
    (h : popFirst market_id acc.positions = some (position, rest)) :
    resolve_market acc market_id outcome now =
      (true,
        let pnl := if position.side = outcome
          then (100 - position.entry_price) / 100 * (position.quantity : ℚ)
          else -position.entry_price / 100 * (position.quantity : ℚ)
        { acc with
            balance := acc.balance + pnl
            total_trades := acc.total_trades + 1
            total_pnl := acc.total_pnl + pnl
            winning_trades := acc.winning_trades + (if pnl > 0 then 1 else 0)
            positions := rest
            closed_positions := acc.closed_positions ++
              [{ position with
                  exit_price := some (if position.side = outcome then 100 else 0)
                  exit_time := some now
                  status := "resolved"
                  pnl := pnl
                  resolution := some
                    (if position.side = outcome then "win" else "lose") }] }) := by
  unfold resolve_market
  rw [h]

open Models PaperTrader in
/-- A one-position account used to witness `C8_resolve_market` and the
`simulate_from_opportunities` sizing: YES position at 60¢, 10
contracts. -/
def resolveWitnessAcc : PaperAccount :=
  { positions := [mkOpenPosition "m" "t" "kalshi" "YES" 60 10 70 ⟨0⟩] }

open Models PaperTrader in
/-- Witness for `C8_resolve_market`: resolving the YES position at 60¢
for 10 contracts with outcome `YES` succeeds, pays `pnl = 4`, empties
the open set and records a `win`. -/
theorem C8_resolve_market_witness :
    (resolve_market resolveWitnessAcc "m" "YES" ⟨1⟩).1 = true ∧
    (resolve_market resolveWitnessAcc "m" "YES" ⟨1⟩).2.balance = 1004 ∧
    (resolve_market resolveWitnessAcc "m" "YES" ⟨1⟩).2.positions = [] ∧
    ((resolve_market resolveWitnessAcc "m" "YES" ⟨1⟩).2.closed_positions.map
      PaperPosition.resolution) = [some "win"] := by
  have H := C8_resolve_market resolveWitnessAcc "m" "YES" ⟨1⟩
    (mkOpenPosition "m" "t" "kalshi" "YES" 60 10 70 ⟨0⟩) []
    (by rw [resolveWitnessAcc]; rfl)
  rw [H]
  norm_num [resolveWitnessAcc, mkOpenPosition]

open Models PaperTrader in
/-- C9: `close_position` and `resolve_market` called with a market id
that has no open position return a failure and leave the entire account
unchanged. -/
theorem C9_missing_position (acc : PaperAccount) (market_id : String)
    (exit_price : ℚ) (outcome : String) (now : Datetime)
    (h : ∀ p ∈ acc.positions, p.market_id ≠ market_id) :
    close_position acc market_id exit_price now = (false, acc) ∧
    resolve_market acc market_id outcome now = (false, acc) := by
  have hp := popFirst_eq_none h
  constructor
  · rw [close_position, hp]
  · rw [resolve_market, hp]

open Models PaperTrader in
/-- Witness for `C9_missing_position` on the empty account. -/
theorem C9_missing_position_witness :
    close_position {} "m" 50 ⟨0⟩ = (false, {}) ∧
    resolve_market {} "m" "YES" ⟨0⟩ = (false, {}) :=
  C9_missing_position {} "m" 50 "YES" ⟨0⟩ (by intro p hp; cases hp)

open Models PaperTrader in
/-- C10: every position that `simulate_from_opportunities` adds to the
account has quantity
`max(10, int(position_size * min(kelly_fraction, 0.25) * 4))` for some
opportunity in the list, hence at least 10 contracts, even when the
Kelly fraction is 0. -/
theorem C10_min_position_size (opps : List OpportunityAnalysis)
    (acc : PaperAccount) (max_positions position_size : ℤ) (min_edge : ℚ)
    (now : Datetime) :
    ∀ p ∈ (simulate_from_opportunities acc opps max_positions position_size
        min_edge now).positions,
      p ∈ acc.positions ∨
        (10 ≤ p.quantity ∧ ∃ opp ∈ opps,
          p.quantity =
            max 10 (pyTrunc ((position_size : ℚ) * min opp.kelly_fraction (1/4) * 4))) := by
  induction opps generalizing acc with
  | nil =>
    intro p hp
    rw [simulate_from_opportunities] at hp
    exact Or.inl hp
  | cons opp rest ih =>
    intro p hp
    rw [simulate_from_opportunities] at hp
    dsimp only at hp
    split_ifs at hp with h1 h2 h3
    · exact Or.inl hp
    · rcases ih acc p hp with h | ⟨hq, o, ho, he⟩
      · exact Or.inl h
      · exact Or.inr ⟨hq, o, List.mem_cons_of_mem _ ho, he⟩
    · rcases ih acc p hp with h | ⟨hq, o, ho, he⟩
      · exact Or.inl h
      · exact Or.inr ⟨hq, o, List.mem_cons_of_mem _ ho, he⟩
    · rcases ih _ p hp with h | ⟨hq, o, ho, he⟩
      · rcases open_position_mem _ _ _ _ _ _ _ _ _ _ h with h' | h'
        · exact Or.inl h'
        · refine Or.inr ⟨?_, opp, List.mem_cons_self _ _, ?_⟩
          · rw [h']
            exact le_max_left 10 _
          · rw [h']
            rfl
      · exact Or.inr ⟨hq, o, List.mem_cons_of_mem _ ho, he⟩

open Models in
/-- A market for the `simulate_from_opportunities` witness. -/
def simMarket : Market :=
  { id := "m"
    platform := .kalshi
    title := "t"
    description := "d"
    resolution_criteria := "r"
    resolution_date := ⟨0⟩
    last_updated := ⟨0⟩ }

open Models in
/-- An opportunity with Kelly fraction 0 passing the edge filter. -/
def simOpp : OpportunityAnalysis :=
  { market := simMarket
    side := "YES"
    fair_probability := 1/2
    market_probability := 2/5
    edge := 1/10
    expected_value := 5/4
    kelly_fraction := 0
    recommended_price := 40
    available_quantity := 100 }

open Models PaperTrader in
/-- Witness for `C10_min_position_size`: the zero-Kelly opportunity is
opened at exactly 10 contracts on an empty account. -/
theorem C10_min_position_size_witness :
    mkOpenPosition "m" "t" "kalshi" "YES" 40 10 (1/2 * 100) ⟨0⟩ ∈
        ({} : PaperAccount).positions ∨
      (10 ≤ (mkOpenPosition "m" "t" "kalshi" "YES" 40 10 (1/2 * 100) ⟨0⟩).quantity ∧
        ∃ opp ∈ [simOpp],
          (mkOpenPosition "m" "t" "kalshi" "YES" 40 10 (1/2 * 100) ⟨0⟩).quantity =
            max 10 (pyTrunc ((50 : ℤ) * min opp.kelly_fraction (1/4) * 4))) := by
  refine C10_min_position_size [simOpp] {} 10 50 (1/20) ⟨0⟩
    (mkOpenPosition "m" "t" "kalshi" "YES" 40 10 (1/2 * 100) ⟨0⟩) ?_
  norm_num [simulate_from_opportunities, open_position, simOpp, simMarket,
    mkOpenPosition, pyTrunc, PaperAccount.available_balance, Platform.value]

end BaserateArb
